import Mathlib

/-!
Verification of the Buffer/Storage memory layer of the `autodiff-rust`
repository against its natural-language specification.

The development is a shallow embedding of the relevant Rust sources:

* `src/storage.rs`  — `Storage<T>` (fields `ptr`, `len`, `layout`), its
  constructors `uninitialized` / `new` / `with_container`, the accessors
  `direct_read` / `as_slice`, the free function `align_to`, `pad_zeros`,
  the `Drop` impl, and `copy_storage` / `clone_storage`;
* `src/buffer.rs` and `src/memory/buffer.rs` — the two revisions of the
  raw `Buffer<T, A>` with `with_alignment`, and their (identical)
  `utils::align_to` / `utils::zero_trailing_bytes`;
* `src/error.rs` — the `TensorError` type (the variant constructed by
  `storage.rs` is `MemoryViolation { why }`).

Machine integers (`usize`) are modelled as `Nat` with explicit wrapping
`% 2^64` exactly where the Rust code performs unchecked (release-mode)
arithmetic.  Raw memory is modelled at two granularities: a byte map
`Nat → Nat` for the buffer constructors and padding logic, and an
element map `Nat → Option α` (`none` = uninitialized slot) for
`Storage`.  Fatal assertions/panics are modelled by `Option`/dedicated
constructors, recoverable errors by `Except TensorError`.
-/

/-- The number of values of `usize`: unchecked Rust arithmetic on `usize`
wraps modulo this constant in release builds. -/
def USIZE : Nat := 2 ^ 64

/-- Value of `isize::MAX`; `Layout::from_size_align(size, align)` fails when
`size > isize::MAX - (align - 1)`. -/
def ISIZE_MAX : Nat := 2 ^ 63 - 1

/-- Model of `usize::is_power_of_two` (`self != 0 && self & (self - 1) == 0`). -/
def isPow2 (n : Nat) : Bool :=
  n != 0 && (n &&& (n - 1)) == 0

/-- Model of `fn align_to<T>(numel, align)` from `src/storage.rs`
(lines 275-286).  `size_in_bytes = numel * tsize` is an **unchecked**
multiplication: in release builds it wraps modulo `2^64`, which is what
the `% USIZE` below captures (debug builds would panic).  The mask
`!(align - 1)` on 64-bit `usize` is `2^64 - align`. -/
def alignTo (tsize numel align : Nat) : Nat :=
  if tsize = 0 ∨ numel = 0 then 0
  else (((numel * tsize) % USIZE + align - 1) % USIZE) &&& (USIZE - align)

namespace utils

/-- Model of `utils::align_to<T>(numel, align)` shared by
`src/buffer.rs` (lines 249-257) and `src/memory/buffer.rs`
(lines 221-229).  The multiplication is `checked_mul` followed by a
panic on overflow (modelled as `none`); the rounding addition
`size_in_bytes + align - 1` is unchecked and wraps in release builds. -/
def alignTo (tsize numel align : Nat) : Option Nat :=
  if numel * tsize < USIZE then
    some (((numel * tsize + align - 1) % USIZE) &&& (USIZE - align))
  else
    none

/-- Model of `utils::zero_trailing_bytes<T>(ptr, length, size)`: zeroes
every byte from offset `length * size_of::<T>()` up to `size` (a no-op
when `length * size_of::<T>() >= size`). -/
def zeroTrailingBytes (tsize length size : Nat) (mem : Nat → Nat) : Nat → Nat :=
  fun i => if length * tsize ≤ i ∧ i < size then 0 else mem i

end utils

/-- Byte-level model of a constructed `Buffer`: requested element count,
`layout.size()`, and the bytes of the allocation (`mem i` is the byte at
offset `i`, meaningful for `i < layoutSize`). -/
structure Buffer where
  numel : Nat
  layoutSize : Nat
  mem : Nat → Nat

/-- Model of `Buffer::with_alignment(numel, align, zeroed, allocator)` from
`src/buffer.rs` (lines 113-164).  `none` models the fatal assertions (ZST,
`numel == 0`, non-power-of-two alignment, `checked_mul` overflow, layout
failure).  `mem0` is the arbitrary content of a fresh (non-zeroed)
allocation; `debug` selects `cfg!(debug_assertions)`.  Note the order of
operations in this revision: the non-zeroed branch zero-fills the trailing
padding first, and the debug poison (`0xAB` over all `size` bytes) runs
afterwards. -/
def Buffer.withAlignment (tsize numel align : Nat) (zeroed debug : Bool)
    (mem0 : Nat → Nat) : Option Buffer :=
  if tsize = 0 then none
  else if numel = 0 then none
  else if ¬ isPow2 align then none
  else
    match utils.alignTo tsize numel align with
    | none => none
    | some size =>
      if ISIZE_MAX - (align - 1) < size then none
      else
        let mem1 := if zeroed then (fun _ => 0)
                    else utils.zeroTrailingBytes tsize numel size mem0
        let mem2 := if debug then (fun i => if i < size then 0xAB else mem1 i)
                    else mem1
        some { numel := numel, layoutSize := size, mem := mem2 }

/-- Model of `Buffer::with_alignment::<I, Align>(numel, allocator)` from
`src/memory/buffer.rs` (lines 99-136).  The power-of-two guard models the
assertion inside the `AlignmentStrategy` implementations
(`src/memory/policy.rs`) that produce `align`.  In this revision the debug
poison runs **before** `zero_trailing_bytes`, so the padding is zeroed
last. -/
def Memory.Buffer.withAlignment (tsize numel align : Nat) (zeroed debug : Bool)
    (mem0 : Nat → Nat) : Option Buffer :=
  if tsize = 0 then none
  else if numel = 0 then none
  else if ¬ isPow2 align then none
  else
    match utils.alignTo tsize numel align with
    | none => none
    | some size =>
      if ISIZE_MAX - (align - 1) < size then none
      else
        let mem1 := if zeroed then (fun _ => 0) else mem0
        let mem2 := if debug then (fun i => if i < size then 0xAB else mem1 i)
                    else mem1
        some { numel := numel, layoutSize := size,
               mem := utils.zeroTrailingBytes tsize numel size mem2 }

/-- Byte-level model of `Storage::pad_zeros` (`src/storage.rs` lines
214-237): when `layout.size() != 0` it zeroes
`padding_len_elements = layout.size() / size_of::<T>() - len` whole
elements starting at element offset `len` — i.e. the bytes from
`len * tsize` up to `len * tsize + padding_len_elements * tsize`. -/
def padZerosBytes (tsize len size : Nat) (mem : Nat → Nat) : Nat → Nat :=
  if size ≠ 0 then
    fun i => if len * tsize ≤ i ∧ i < len * tsize + (size / tsize - len) * tsize
             then 0 else mem i
  else mem

/-- Model of `TensorError`.  `storage.rs` constructs the
`MemoryViolation { why }` variant on a size mismatch (the sibling
revision `src/error.rs` names the string-carrying variant
`Memory(String)`); only this variant is reachable from the embedded
code. -/
inductive TensorError where
  | memoryViolation (why : String)
deriving Repr, DecidableEq

/-- Element-level model of `Storage<T>` (`src/storage.rs`).  `len` and
`layoutSize` are the `len` and `layout.size()` fields; `contents i` is
the element in slot `i` of the allocation (`none` = uninitialized
bytes); `allocId` identifies the underlying heap allocation, so that
distinctness of allocations is expressible. -/
structure Storage (α : Type) where
  len : Nat
  layoutSize : Nat
  contents : Nat → Option α
  allocId : Nat

namespace Storage

/-- Model of `Storage::ALIGN`: AVX2 32-byte alignment. -/
def ALIGN : Nat := 32

/-- Model of `Storage::uninitialized(numel)` (`src/storage.rs` lines
66-104): computes `size = align_to::<T>(numel, Self::ALIGN)`, allocates
(dangling pointer when `size == 0`), sets `len = numel`, and calls
`pad_zeros`.  No element is constructed, so every slot is `none`; the
byte-level effect of `pad_zeros` is modelled by `padZerosBytes`.
`aid` is the identity of the fresh allocation. -/
def uninitialized (tsize numel aid : Nat) : Storage α :=
  { len := numel
    layoutSize := alignTo tsize numel ALIGN
    contents := fun _ => none
    allocId := aid }

/-- Model of `Storage::with_container(&mut self, container)`
(`src/storage.rs` lines 115-148): if the container length differs from
`self.len()` it returns `Err(TensorError::MemoryViolation { why })`
with a message naming both sizes and leaves the storage untouched;
otherwise it `copy_nonoverlapping`s the `slice.len()` elements into the
front of the allocation. -/
def withContainer (s : Storage α) (container : List α) :
    Except TensorError (Storage α) :=
  let sliceSize := container.length
  let tensorCapacity := s.len
  if sliceSize ≠ tensorCapacity then
    .error (.memoryViolation
      ("tried to assign " ++ toString sliceSize ++
       " elements to a buffer that can hold " ++ toString tensorCapacity ++
       " elements"))
  else
    .ok { s with contents := fun i => if i < sliceSize then container[i]? else s.contents i }

/-- Model of `Storage::new(container)` (`src/storage.rs` lines 48-53):
`uninitialized(container.len())` followed by `with_container`. -/
def new (tsize : Nat) (container : List α) (aid : Nat) :
    Except TensorError (Storage α) :=
  (uninitialized tsize container.length aid).withContainer container

/-- Model of `Storage::as_slice` (`src/storage.rs` lines 178-193): the
slice over slots `0..len` (each slot still `Option`al, `none` marking a
read of uninitialized memory). -/
def asSlice (s : Storage α) : List (Option α) :=
  (List.range s.len).map s.contents

/-- Possible outcomes of `Storage::direct_read`: a reference to the
element, a panic (failed `assert!`), or a read of uninitialized
memory. -/
inductive ReadResult (α : Type) where
  | val (a : α)
  | panicked
  | undef
deriving Repr, DecidableEq

/-- Model of `Storage::direct_read(&self, offset)` (`src/storage.rs`
lines 239-254): `assert!(offset < self.len())` — panicking otherwise —
then reads the element at `offset`, which is assumed initialized. -/
def directRead (s : Storage α) (offset : Nat) : ReadResult α :=
  if offset < s.len then
    match s.contents offset with
    | some a => .val a
    | none => .undef
  else .panicked

/-- Model of the effects of `Drop for Storage<T>` (`src/storage.rs`
lines 288-319): returns the list of element indices passed to
`drop_in_place` (in execution order) and the number of `dealloc` calls.
If `layout.size() == 0` the drop returns early (no destructor runs, no
deallocation); otherwise it drops slots `0..len` in ascending order when
`T` needs drop, then deallocates exactly once. -/
def dropStorage (s : Storage α) (needsDrop : Bool) : List Nat × Nat :=
  if s.layoutSize = 0 then ([], 0)
  else ((if needsDrop then List.range s.len else []), 1)

/-- Model of `Storage::copy_storage(&self)` (`src/storage.rs` lines
321-342, `T: Copy`): a fresh `uninitialized(self.len())` storage whose
first `len` slots are `copy_nonoverlapping`ed from `self`. -/
def copyStorage (tsize : Nat) (s : Storage α) (aid : Nat) : Storage α :=
  if s.len = 0 then uninitialized tsize 0 aid
  else
    let t : Storage α := uninitialized tsize s.len aid
    { t with contents := fun i => if i < s.len then s.contents i else t.contents i }

/-- The intermediate `src_slice.to_vec()` of `clone_storage`: clones
every element of `as_slice`, defined (`none`) only when every slot in
`0..len` is initialized. -/
def asSliceChecked (s : Storage α) : Option (List α) :=
  (List.range s.len).mapM s.contents

/-- Model of `Storage::clone_storage(&self)` (`src/storage.rs` lines
344-360, `T: Clone`): for `len == 0` a fresh `uninitialized(0)`;
otherwise `Storage::new(src_slice.to_vec())`, whose `expect` is
modelled by `Except.toOption`. -/
def cloneStorage (tsize : Nat) (s : Storage α) (aid : Nat) : Option (Storage α) :=
  if s.len = 0 then some (uninitialized tsize s.len aid)
  else (asSliceChecked s).bind fun clonedData => (new tsize clonedData aid).toOption

end Storage

/-! ## Supporting lemmas -/

/-- Clearing the low `k` bits of a 64-bit value: for `x < 2^64` the mask
`!(2^k - 1) = 2^64 - 2^k` rounds `x` down to a multiple of `2^k`. -/
theorem land_mask_of_lt (x k : Nat) (hx : x < 2 ^ 64) (hk : k ≤ 64) :
    x &&& (2 ^ 64 - 2 ^ k) = 2 ^ k * (x / 2 ^ k) := by
  have hmask : 2 ^ 64 - 2 ^ k = (2 ^ (64 - k) - 1) <<< k := by
    rw [Nat.shiftLeft_eq, Nat.sub_mul, one_mul, ← pow_add]
    congr 2
    omega
  have hrhs : 2 ^ k * (x / 2 ^ k) = (x >>> k) <<< k := by
    rw [Nat.shiftRight_eq_div_pow, Nat.shiftLeft_eq, mul_comm]
  rw [hmask, hrhs]
  apply Nat.eq_of_testBit_eq
  intro i
  rw [Nat.testBit_land, Nat.testBit_shiftLeft, Nat.testBit_shiftLeft,
    Nat.testBit_two_pow_sub_one, Nat.testBit_shiftRight]
  by_cases hik : k ≤ i
  · by_cases hi64 : i < 64
    · have h1 : k + (i - k) = i := by omega
      have h2 : i - k < 64 - k := by omega
      simp [hik, h1, h2]
    · have hxf : x.testBit i = false :=
        Nat.testBit_eq_false_of_lt
          (lt_of_lt_of_le hx (Nat.pow_le_pow_right (by norm_num) (by omega)))
      have h1 : k + (i - k) = i := by omega
      have h2 : ¬ (i - k < 64 - k) := by omega
      simp [hik, h1, h2, hxf]
  · simp [hik]

/-- Rounding `b` up to the next multiple of `a` never falls below `b`. -/
theorem le_roundup (b a : Nat) (ha : 0 < a) : b ≤ a * ((b + a - 1) / a) := by
  have hdm := Nat.div_add_mod (b + a - 1) a
  have hmlt : (b + a - 1) % a < a := Nat.mod_lt _ ha
  generalize ht : a * ((b + a - 1) / a) = t at hdm ⊢
  generalize hr : (b + a - 1) % a = r at hdm hmlt
  omega

/-- Reading every position of a list through `getElem?` recovers the list. -/
theorem range_map_getElem_eq_map_some (α : Type) (xs : List α) :
    (List.range xs.length).map (fun i => xs[i]?) = xs.map some := by
  induction xs with
  | nil => rfl
  | cons a t ih =>
    rw [List.length_cons, List.range_succ_eq_map, List.map_cons, List.map_map]
    simp only [Function.comp_def, List.getElem?_cons_succ, List.getElem?_cons_zero,
      List.map_cons]
    rw [ih]

/-- An `Option`-valued `mapM` succeeds pointwise when every entry is `some`. -/
theorem mapM_eq_some_map (α : Type) (f : Nat → Option α) (v : Nat → α) :
    ∀ l : List Nat, (∀ i ∈ l, f i = some (v i)) → l.mapM f = some (l.map v) := by
  intro l
  induction l with
  | nil => intro _; rfl
  | cons a t ih =>
    intro h
    rw [List.mapM_cons, h a (by simp), ih (fun i hi => h i (by simp [hi]))]
    rfl

/-- Two `Storage` values with equal fields are equal. -/
theorem Storage.eq_of_fields {α : Type} {s t : Storage α} (h1 : s.len = t.len)
    (h2 : s.layoutSize = t.layoutSize) (h3 : s.contents = t.contents)
    (h4 : s.allocId = t.allocId) : s = t := by
  cases s
  cases t
  simp_all

/-! ## Claims C1-C5 -/

/-- Claim C1, counterexample: a freshly constructed
`Storage::<u32>::uninitialized(3)` has `len() == 3`, not `0` as the claim
states. -/
theorem c1_fresh_storage_len_counterexample :
    (Storage.uninitialized 4 3 0 : Storage Nat).len = 3 ∧
    (Storage.uninitialized 4 3 0 : Storage Nat).len ≠ 0 := by decide

/-- Claim C1 (amended): immediately after `Storage::uninitialized(numel)`,
`len()` returns `numel` (the full capacity, not 0), and no read yields a
constructed value: `direct_read(i)` reads uninitialized memory for
`i < numel` and panics for `i ≥ numel`. -/
theorem c1_uninitialized_len_and_reads (α : Type) (tsize numel aid i : Nat) :
    (Storage.uninitialized tsize numel aid : Storage α).len = numel ∧
    Storage.directRead (Storage.uninitialized tsize numel aid : Storage α) i =
      (if i < numel then .undef else .panicked) := by
  refine ⟨rfl, ?_⟩
  by_cases h : i < numel <;> simp [Storage.directRead, Storage.uninitialized, h]

/-- Claim C2, counterexample: dropping a `Storage` with `len = 0` issues
zero deallocation calls (the `Drop` impl returns early when
`layout.size() == 0`), not exactly one as the claim requires for `k = 0`. -/
theorem c2_drop_zero_len_counterexample :
    Storage.dropStorage (Storage.uninitialized 4 0 0 : Storage Nat) true = ([], 0) ∧
    (Storage.dropStorage (Storage.uninitialized 4 0 0 : Storage Nat) true).2 ≠ 1 := by
  decide

/-- Claim C2 (amended): when the layout size is nonzero, dropping a
`Storage` with `len = k` and a `T` that needs drop runs `drop_in_place`
on slots `0, 1, ..., k-1` in ascending order and deallocates exactly
once; when the layout size is zero (requested count 0, or zero-sized
`T`) it runs no destructor and no deallocation. -/
theorem c2_drop_destroys_then_deallocates (α : Type) (s : Storage α) :
    (s.layoutSize ≠ 0 → Storage.dropStorage s true = (List.range s.len, 1)) ∧
    (s.layoutSize = 0 → Storage.dropStorage s true = ([], 0)) := by
  constructor <;> intro h <;> simp [Storage.dropStorage, h]

/-- Witness for C2's amended theorem at `len = 5`, `size_of(T) = 4`. -/
theorem c2_drop_destroys_then_deallocates_witness :
    (Storage.uninitialized 4 5 0 : Storage Nat).layoutSize ≠ 0 ∧
    Storage.dropStorage (Storage.uninitialized 4 5 0 : Storage Nat) true =
      (List.range 5, 1) :=
  ⟨by decide, (c2_drop_destroys_then_deallocates Nat _).1 (by decide)⟩

/-- Claim C3: in `src/buffer.rs` the debug poison (`0xAB` over all
allocated bytes) runs after `zero_trailing_bytes` (and after
`allocate_zeroed`), so in debug builds the first padding byte (offset 12
for `numel = 3` four-byte elements under 32-byte alignment) reads `0xAB`,
not zero, under both init policies.  The `src/memory/buffer.rs` revision
zeroes the padding after the poison and does leave it zero.  Also,
`Storage::pad_zeros` zeroes only whole trailing *elements*: for a 3-byte
type with `numel = 3` (allocated size 32) the final bytes 30 and 31 keep
their previous content in every build. -/
theorem c3_padding_poisoned_in_debug :
    (Buffer.withAlignment 4 3 32 false true (fun _ => 0)).map (fun b => b.mem 12) =
      some 0xAB ∧
    (Buffer.withAlignment 4 3 32 true true (fun _ => 0)).map (fun b => b.mem 12) =
      some 0xAB ∧
    (Memory.Buffer.withAlignment 4 3 32 false true (fun _ => 0)).map (fun b => b.mem 12) =
      some 0 ∧
    (Buffer.withAlignment 4 3 32 false false (fun _ => 0xCD)).map (fun b => b.mem 12) =
      some 0 ∧
    padZerosBytes 3 3 32 (fun _ => 0xCD) 30 = 0xCD ∧
    padZerosBytes 3 3 32 (fun _ => 0xCD) 12 = 0 := by decide

/-- Claim C4: `align_to` in `src/storage.rs` multiplies without
`checked_mul`, so in release builds `Storage::<u32>::uninitialized(2^62 + 1)`
silently wraps (`(2^62 + 1) * 4 ≡ 4 (mod 2^64)`), producing a 32-byte
layout for a storage that claims `len = 2^62 + 1` — no fatal failure.
The buffer revisions' `utils::align_to` does catch the same overflow
(`checked_mul` + panic, modelled as `none`). -/
theorem c4_storage_align_to_wraps_silently :
    alignTo 4 (2 ^ 62 + 1) 32 = 32 ∧
    32 < (2 ^ 62 + 1) * 4 ∧
    (Storage.uninitialized 4 (2 ^ 62 + 1) 0 : Storage Nat).len = 2 ^ 62 + 1 ∧
    (Storage.uninitialized 4 (2 ^ 62 + 1) 0 : Storage Nat).layoutSize = 32 ∧
    utils.alignTo 4 (2 ^ 62 + 1) 32 = none := by decide

/-- Claim C5, counterexample: `Storage::uninitialized` accepts both
`numel = 0` and zero-sized `T`, returning a storage with a zero-size
layout instead of aborting (the repository's own tests
`test_zero_elements` and `test_allocation_deallocation` rely on this). -/
theorem c5_storage_accepts_degenerate_inputs :
    (Storage.uninitialized 4 0 0 : Storage Nat).len = 0 ∧
    (Storage.uninitialized 4 0 0 : Storage Nat).layoutSize = 0 ∧
    (Storage.uninitialized 0 5 0 : Storage Nat).len = 5 ∧
    (Storage.uninitialized 0 5 0 : Storage Nat).layoutSize = 0 := by decide

/-- Claim C5 (amended): the `Buffer::with_alignment` constructors (both
revisions) reject a zero-sized element type or `numel == 0` with a fatal
assertion; `Storage::uninitialized` instead accepts them and returns a
storage with `len = numel` and layout size 0. -/
theorem c5_buffer_asserts_storage_accepts (tsize numel align : Nat)
    (zeroed debug : Bool) (mem0 : Nat → Nat) (h : tsize = 0 ∨ numel = 0) :
    Buffer.withAlignment tsize numel align zeroed debug mem0 = none ∧
    Memory.Buffer.withAlignment tsize numel align zeroed debug mem0 = none ∧
    (Storage.uninitialized tsize numel 0 : Storage Nat).len = numel ∧
    (Storage.uninitialized tsize numel 0 : Storage Nat).layoutSize = 0 := by
  refine ⟨?_, ?_, rfl, ?_⟩
  · unfold Buffer.withAlignment
    rcases h with h | h
    · simp [h]
    · by_cases htz : tsize = 0 <;> simp [h, htz]
  · unfold Memory.Buffer.withAlignment
    rcases h with h | h
    · simp [h]
    · by_cases htz : tsize = 0 <;> simp [h, htz]
  · show alignTo tsize numel Storage.ALIGN = 0
    unfold alignTo
    rw [if_pos h]

/-- Witness for C5's amended theorem at `size_of(T) = 4`, `numel = 0`. -/
theorem c5_buffer_asserts_storage_accepts_witness :
    ((4 : Nat) = 0 ∨ (0 : Nat) = 0) ∧
    Buffer.withAlignment 4 0 32 false false (fun _ => 0) = none ∧
    Memory.Buffer.withAlignment 4 0 32 false false (fun _ => 0) = none ∧
    (Storage.uninitialized 4 0 0 : Storage Nat).len = 0 ∧
    (Storage.uninitialized 4 0 0 : Storage Nat).layoutSize = 0 :=
  ⟨Or.inr rfl, c5_buffer_asserts_storage_accepts 4 0 32 false false (fun _ => 0) (Or.inr rfl)⟩

/-! ## Claims C6-C10 -/

/-- Claim C6, counterexample: out-of-range access panics.
`direct_read(5)` on a `Storage` with `len = 2` hits the
`assert!(offset < self.len())` — it does not return an Option-style
absence. -/
theorem c6_direct_read_panics_counterexample :
    Storage.directRead (Storage.uninitialized 4 2 0 : Storage Nat) 5 =
      Storage.ReadResult.panicked := by decide

/-- Claim C6 (amended): on a `Storage` initialized from a container,
`direct_read(i)` returns the `i`-th element for `i < len()` and panics
(fatal assertion, not an absence value) for `i ≥ len()`; there is no
`Option`-returning `get` on this `Storage`. -/
theorem c6_direct_read_val_or_panic (α : Type) (tsize aid : Nat) (xs : List α) (i : Nat) :
    (Storage.new tsize xs aid).map (fun s => Storage.directRead s i) =
      Except.ok (match xs[i]? with
        | some a => Storage.ReadResult.val a
        | none => Storage.ReadResult.panicked) := by
  unfold Storage.new Storage.withContainer Storage.uninitialized
  rw [if_neg (by simp)]
  simp only [Except.map]
  by_cases hi : i < xs.length
  · rw [List.getElem?_eq_getElem hi]
    simp [Storage.directRead, hi]
  · rw [List.getElem?_eq_none (by omega)]
    simp [Storage.directRead, hi]

/-- Claim C7, counterexample: for `numel = 2^64 - 31` one-byte elements
under 32-byte alignment, `checked_mul` passes but the rounding addition
`size_in_bytes + align - 1` wraps modulo `2^64`, so `utils::align_to`
returns 0, strictly below the requested `numel * size_of(T)` bytes. -/
theorem c7_align_to_wraps_to_zero :
    utils.alignTo 1 (2 ^ 64 - 31) 32 = some 0 ∧ 0 < (2 ^ 64 - 31) * 1 := by decide

/-- Claim C7 (amended): whenever the rounding addition
`numel * size_of(T) + align - 1` does not wrap the address space,
`utils::align_to` succeeds with a size that is at least
`numel * size_of(T)` and an exact multiple of the (power-of-two)
alignment. -/
theorem c7_allocated_size_rounds_up (tsize numel k : Nat) (hk : k ≤ 64)
    (hov : numel * tsize + 2 ^ k - 1 < USIZE) :
    ∃ s, utils.alignTo tsize numel (2 ^ k) = some s ∧
      numel * tsize ≤ s ∧ 2 ^ k ∣ s := by
  have hpos : 0 < 2 ^ k := Nat.two_pow_pos k
  have hassoc : numel * tsize + 2 ^ k - 1 = numel * tsize + (2 ^ k - 1) :=
    Nat.add_sub_assoc hpos _
  have hb : numel * tsize < USIZE :=
    lt_of_le_of_lt (by rw [hassoc]; exact Nat.le_add_right _ _) hov
  simp only [USIZE] at hov hb
  unfold utils.alignTo
  simp only [USIZE]
  rw [if_pos hb, Nat.mod_eq_of_lt hov, land_mask_of_lt _ k hov hk]
  exact ⟨_, rfl, le_roundup _ _ hpos, dvd_mul_right _ _⟩

/-- Witness for C7's amended theorem at `numel = 3`, `size_of(T) = 4`,
alignment `2^5 = 32`. -/
theorem c7_allocated_size_rounds_up_witness :
    ((5 : Nat) ≤ 64 ∧ 3 * 4 + 2 ^ 5 - 1 < USIZE) ∧
    ∃ s, utils.alignTo 4 3 (2 ^ 5) = some s ∧ 3 * 4 ≤ s ∧ 2 ^ 5 ∣ s :=
  ⟨⟨by decide, by decide⟩, c7_allocated_size_rounds_up 4 3 5 (by decide) (by decide)⟩

/-- Claim C8: `with_container` on a length mismatch returns the typed
`TensorError::MemoryViolation` error naming both the received and the
expected element counts — no panic — and leaves the storage (and hence
its allocation, still deallocated exactly once on drop) untouched. -/
theorem c8_with_container_mismatch_is_typed_error (s : Storage Nat) (xs : List Nat)
    (h : xs.length ≠ s.len) :
    Storage.withContainer s xs = Except.error (TensorError.memoryViolation
      ("tried to assign " ++ toString xs.length ++
       " elements to a buffer that can hold " ++ toString s.len ++ " elements")) ∧
    (s.layoutSize ≠ 0 → Storage.dropStorage s true = (List.range s.len, 1)) := by
  constructor
  · unfold Storage.withContainer
    rw [if_pos h]
  · intro h0
    simp [Storage.dropStorage, h0]

/-- Witness for C8 at the repository's own test input
(`test_overfilled_storage`): capacity 2, source length 3. -/
theorem c8_with_container_mismatch_is_typed_error_witness :
    Storage.withContainer (Storage.uninitialized 1 2 0 : Storage Nat) [1, 2, 3] =
      Except.error (TensorError.memoryViolation
        "tried to assign 3 elements to a buffer that can hold 2 elements") ∧
    Storage.dropStorage (Storage.uninitialized 1 2 0 : Storage Nat) true =
      (List.range 2, 1) :=
  ⟨(c8_with_container_mismatch_is_typed_error _ [1, 2, 3] (by decide)).1,
   (c8_with_container_mismatch_is_typed_error _ [1, 2, 3] (by decide)).2 (by decide)⟩

/-- Claim C9: constructing a `Storage` from any source sequence and
reading it back through `as_slice` returns exactly the source elements. -/
theorem c9_new_as_slice_roundtrip (α : Type) (tsize aid : Nat) (xs : List α) :
    (Storage.new tsize xs aid).map Storage.asSlice = Except.ok (xs.map some) := by
  unfold Storage.new Storage.withContainer Storage.uninitialized
  rw [if_neg (by simp)]
  simp only [Except.map, Storage.asSlice]
  congr 1
  have hcongr : (List.range xs.length).map
        (fun i => if i < xs.length then xs[i]? else (none : Option α)) =
      (List.range xs.length).map (fun i => xs[i]?) :=
    List.map_congr_left (fun i hi => by rw [if_pos (List.mem_range.mp hi)])
  rw [hcongr, range_map_getElem_eq_map_some]

/-- Closed form of `copy_storage`: a fresh storage (allocation `aid`)
with the same `len`, the layout recomputed by `uninitialized`, and the
first `len` slots bitwise-copied from the source. -/
theorem copyStorage_fields (α : Type) (tsize : Nat) (s : Storage α) (aid : Nat) :
    Storage.copyStorage tsize s aid =
      { len := s.len, layoutSize := alignTo tsize s.len Storage.ALIGN,
        contents := fun i => if i < s.len then s.contents i else none,
        allocId := aid } := by
  unfold Storage.copyStorage Storage.uninitialized
  by_cases h0 : s.len = 0
  · rw [if_pos h0]
    refine Storage.eq_of_fields ?_ ?_ ?_ ?_
    · simp [h0]
    · simp [h0]
    · funext i
      simp [h0]
    · rfl
  · rw [if_neg h0]

/-- Claim C10: for a fully initialized storage of a `Copy` type (whose
`clone` is the identity, so `v` lists its elements), `clone_storage`
succeeds and produces exactly the storage `copy_storage` produces: same
`len`, element-wise equal contents, and a fresh allocation distinct from
the source's. -/
theorem c10_copy_clone_equivalent (α : Type) (tsize : Nat) (s : Storage α)
    (aid : Nat) (v : Nat → α)
    (hinit : ∀ i, i < s.len → s.contents i = some (v i))
    (hdistinct : aid ≠ s.allocId) :
    Storage.cloneStorage tsize s aid = some (Storage.copyStorage tsize s aid) ∧
    (Storage.copyStorage tsize s aid).len = s.len ∧
    Storage.asSlice (Storage.copyStorage tsize s aid) = Storage.asSlice s ∧
    (Storage.copyStorage tsize s aid).allocId ≠ s.allocId := by
  have hcopy := copyStorage_fields α tsize s aid
  refine ⟨?_, ?_, ?_, ?_⟩
  · unfold Storage.cloneStorage
    by_cases h0 : s.len = 0
    · rw [if_pos h0, hcopy]
      congr 1
      refine Storage.eq_of_fields ?_ ?_ ?_ ?_
      · simp [Storage.uninitialized, h0]
      · simp [Storage.uninitialized, h0]
      · funext i
        simp [Storage.uninitialized, h0]
      · rfl
    · rw [if_neg h0]
      have hmap : Storage.asSliceChecked s = some ((List.range s.len).map v) :=
        mapM_eq_some_map α s.contents v _ (fun i hi => hinit i (List.mem_range.mp hi))
      rw [hmap, Option.some_bind]
      unfold Storage.new Storage.withContainer Storage.uninitialized
      rw [if_neg (by simp)]
      simp only [Except.toOption]
      congr 1
      rw [hcopy]
      refine Storage.eq_of_fields ?_ ?_ ?_ ?_
      · simp
      · simp
      · funext i
        dsimp only
        by_cases hi : i < s.len
        · have hi' : i < (List.map v (List.range s.len)).length := by simpa using hi
          rw [if_pos hi', if_pos hi, List.getElem?_map, List.getElem?_range hi]
          simp [hinit i hi]
        · have hi' : ¬ i < (List.map v (List.range s.len)).length := by simpa using hi
          rw [if_neg hi', if_neg hi]
      · rfl
  · rw [hcopy]
  · rw [hcopy]
    unfold Storage.asSlice
    dsimp only
    exact List.map_congr_left (fun i hi => by rw [if_pos (List.mem_range.mp hi)])
  · rw [hcopy]
    simpa using hdistinct

/-- A concrete fully initialized two-element storage used only to
witness C10. -/
def sampleStorage : Storage Nat :=
  { len := 2, layoutSize := 32,
    contents := fun i => if i < 2 then some (10 * (i + 1)) else none,
    allocId := 0 }

/-- Witness for C10 at a concrete two-element storage. -/
theorem c10_copy_clone_equivalent_witness :
    ((∀ i, i < sampleStorage.len → sampleStorage.contents i = some (10 * (i + 1))) ∧
      (1 : Nat) ≠ sampleStorage.allocId) ∧
    (Storage.cloneStorage 4 sampleStorage 1 = some (Storage.copyStorage 4 sampleStorage 1) ∧
     (Storage.copyStorage 4 sampleStorage 1).len = sampleStorage.len ∧
     Storage.asSlice (Storage.copyStorage 4 sampleStorage 1) = Storage.asSlice sampleStorage ∧
     (Storage.copyStorage 4 sampleStorage 1).allocId ≠ sampleStorage.allocId) :=
  ⟨⟨by decide, by decide⟩,
   c10_copy_clone_equivalent Nat 4 sampleStorage 1 (fun i => 10 * (i + 1))
     (by decide) (by decide)⟩
